import Mathlib

/-!
Shallow embedding of the file-locking and atomic-replacement core of
open-vm-tools lib/file/fileIO.c (FileIO_Lock, FileIO_Unlock,
FileIOAtomicTempPath, FileIO_AtomicTempFile, FileIO_AtomicExchangeFiles),
together with theorems settling the specification claims about them.

Pure functions of the C source become Lean functions; the filesystem is an
association list from paths to file nodes; the fallible OS primitives the
core calls (FileLock_Lock, fstat, FileIO_Create, fchmod, fchown, rename,
reopen) are driven by an explicit environment record so that every control
path of the C code is reachable in the model.  Functions that are part of
this repository but not of the two source files given (FileIO_Close,
FileIO_Open, FileIO_Create, File_RenameRetry) are modelled from the spec;
each such definition says so in its doc comment.
-/

namespace FileIOSpec

/-- The closed FileIOResult set from fileIO.h, as used by fileIO.c. -/
inductive FileIOResult where
  | SUCCESS
  | CANCELLED
  | ERROR
  | OPEN_ERROR_EXIST
  | LOCK_FAILED
  | READ_ERROR_EOF
  | FILE_NOT_FOUND
  | NO_PERMISSION
  | FILE_NAME_TOO_LONG
  | WRITE_ERROR_FBIG
  | WRITE_ERROR_NOSPC
  | WRITE_ERROR_DQUOT
  deriving DecidableEq, Repr

/-- Linux errno values used by the switch in FileIO_Lock. -/
def ENOENT : Nat := 2

def EACCES : Nat := 13

def EROFS : Nat := 30

def ENAMETOOLONG : Nat := 36

/-- Open-flag bits from fileIO.h referenced by fileIO.c. -/
def FILEIO_OPEN_ACCESS_READ : Nat := 1

def FILEIO_OPEN_ACCESS_WRITE : Nat := 2

def FILEIO_OPEN_LOCKED : Nat := 16

def FILEIO_ACCESS_READ : Nat := 1

def FILEIO_ACCESS_WRITE : Nat := 2

/-- The FileIODescriptor struct: file name, platform handle (posix fd, -1
when invalid), the open flags it was opened with, and the optional advisory
lock token the handle owns. -/
structure FileIODescriptor where
  fileName : String
  posix : Int
  flags : Nat
  lockToken : Option Nat
  deriving DecidableEq, Repr

/-- FileIO_IsValid: a descriptor is valid when its platform handle is not
the invalid sentinel. -/
def FileIO_IsValid (fd : FileIODescriptor) : Bool :=
  fd.posix ≠ -1

/-- FileIO_Lock from fileIO.c lines 261-316.  The outcome of the underlying
FileLock_Lock primitive is an input: an optional token, plus the errno-style
reason err (0 meaning the file is currently locked / the wait timed out).
Returns the updated descriptor and the FileIOResult. -/
def FileIO_Lock (file : FileIODescriptor) (access : Nat)
    (fileLockResult : Option Nat) (err : Nat) :
    FileIODescriptor × FileIOResult :=
  if access &&& FILEIO_OPEN_LOCKED ≠ 0 then
    match fileLockResult with
    | some tok => ({ file with lockToken := some tok }, .SUCCESS)
    | none =>
        ({ file with lockToken := none },
         if err = 0 then .LOCK_FAILED
         else if err = EROFS then .LOCK_FAILED
         else if err = ENAMETOOLONG then .FILE_NAME_TOO_LONG
         else if err = ENOENT then .FILE_NOT_FOUND
         else if err = EACCES then .NO_PERMISSION
         else .ERROR)
  else (file, .SUCCESS)

/-- FileIO_Unlock from fileIO.c lines 336-361.  unlockOk is the boolean
outcome of the underlying FileLock_Unlock primitive.  Returns the updated
descriptor, the FileIOResult, and the list of lock tokens that were passed
to the underlying unlock primitive during the call (so double-release is
observable). -/
def FileIO_Unlock (file : FileIODescriptor) (unlockOk : Bool) :
    FileIODescriptor × FileIOResult × List Nat :=
  match file.lockToken with
  | some tok =>
      ({ file with lockToken := none },
       (if unlockOk then FileIOResult.SUCCESS else FileIOResult.ERROR),
       [tok])
  | none => (file, FileIOResult.SUCCESS, [])

/-- FileIOAtomicTempPath from fileIO.c lines 597-613: the full path of the
source file (File_FullPath, an external collaborator passed in as a
function) with a single tilde character appended; NULL when the full path
cannot be resolved. -/
def FileIOAtomicTempPath (fullPath : String → Option String)
    (fileFD : FileIODescriptor) : Option String :=
  match fullPath fileFD.fileName with
  | none => none
  | some srcPath => some (srcPath ++ "~")

/-- A file node on disk: content plus the metadata fstat reports and
fchmod/fchown change. -/
structure FileNode where
  content : String
  mode : Nat
  uid : Nat
  gid : Nat
  deriving DecidableEq, Repr

/-- The stat triple that fstat reads from the original file. -/
structure Stat where
  mode : Nat
  uid : Nat
  gid : Nat
  deriving DecidableEq, Repr

/-- The filesystem: an association list from paths to file nodes, read
through fsLookup so a path denotes at most one node. -/
abbrev FileSys := List (String × FileNode)

def fsLookup (fs : FileSys) (p : String) : Option FileNode :=
  (fs.find? (fun e => e.1 = p)).map (·.2)

/-- Remove every entry at path p (unlink). -/
def fsErase (fs : FileSys) (p : String) : FileSys :=
  fs.filter (fun e => e.1 ≠ p)

/-- Create or overwrite the node at path p. -/
def fsInsert (fs : FileSys) (p : String) (n : FileNode) : FileSys :=
  (p, n) :: fsErase fs p

/-- Number of entries the filesystem holds at path p. -/
def fsCountAt (fs : FileSys) (p : String) : Nat :=
  (fs.filter (fun e => e.1 = p)).length

/-- Replace the metadata-updating view: set the permission bits of the node
at p (fchmod). -/
def fsChmod (fs : FileSys) (p : String) (bits : Nat) : FileSys :=
  fs.map (fun e => if e.1 = p then (e.1, { e.2 with mode := bits }) else e)

/-- Set the owner and group of the node at p (fchown). -/
def fsChown (fs : FileSys) (p : String) (uid gid : Nat) : FileSys :=
  fs.map (fun e => if e.1 = p then (e.1, { e.2 with uid := uid, gid := gid })
                   else e)

/-- Observable events of one FileIO_AtomicTempFile call, in order. -/
inductive TempEvent where
  | statRead (st : Stat)
  | staleUnlink (p : String)
  | create (p : String) (accessMode : Nat) (perms : Nat)
  | applyPerms (p : String) (bits : Nat)
  | applyOwner (p : String) (uid gid : Nat)
  | bailClose (p : String)
  | bailUnlink (p : String)
  deriving DecidableEq, Repr

/-- Outcomes of the fallible primitives FileIO_AtomicTempFile calls, one
field per call site in the C function. -/
structure TempEnv where
  fullPath : String → Option String
  fstatResult : Option Stat
  createStatus : FileIOResult
  chmodOk : Bool
  chownOk : Bool
  procUid : Nat
  procGid : Nat

/-- Result of one FileIO_AtomicTempFile call: the C return value, the
filesystem afterward, whether tempFD was left valid, and the event trace. -/
structure TempResult where
  ok : Bool
  fs : FileSys
  tempValid : Bool
  events : List TempEvent
  deriving Repr

/-- FileIO_AtomicTempFile from fileIO.c lines 634-703, non-Windows branch:
compute the sibling path; fstat the original; unlink a stale sibling;
FileIO_Create the sibling with read+write access and the original's stat
mode as creation permissions (creation, modelled from the spec open
primitive, makes an empty node owned by the calling process); fchmod and
fchown the sibling to the original's stat; on any failure converge on the
bail label, which closes and unlinks the sibling iff tempFD became valid,
and return FALSE. -/
def FileIO_AtomicTempFile (fileFD : FileIODescriptor) (fs : FileSys)
    (env : TempEnv) : TempResult :=
  match FileIOAtomicTempPath env.fullPath fileFD with
  | none => ⟨false, fs, false, []⟩
  | some tempPath =>
    match env.fstatResult with
    | none => ⟨false, fs, false, []⟩
    | some st =>
      let fs1 := fsErase fs tempPath
      let ev1 := [TempEvent.statRead st, TempEvent.staleUnlink tempPath]
      if env.createStatus = FileIOResult.SUCCESS then
        let fs2 := fsInsert fs1 tempPath
                     ⟨"", st.mode, env.procUid, env.procGid⟩
        let ev2 := ev1 ++ [TempEvent.create tempPath
                     (FILEIO_ACCESS_READ ||| FILEIO_ACCESS_WRITE) st.mode]
        if env.chmodOk then
          let fs3 := fsChmod fs2 tempPath st.mode
          let ev3 := ev2 ++ [TempEvent.applyPerms tempPath st.mode]
          if env.chownOk then
            ⟨true, fsChown fs3 tempPath st.uid st.gid, true,
             ev3 ++ [TempEvent.applyOwner tempPath st.uid st.gid]⟩
          else
            ⟨false, fsErase fs3 tempPath, false,
             ev3 ++ [TempEvent.bailClose tempPath,
                     TempEvent.bailUnlink tempPath]⟩
        else
          ⟨false, fsErase fs2 tempPath, false,
           ev2 ++ [TempEvent.bailClose tempPath,
                   TempEvent.bailUnlink tempPath]⟩
      else
        ⟨false, fs1, false, ev1⟩

/-- Split a path at its last slash into directory and file name, as
File_GetPathName does for the VMK branch. -/
def splitAtLastSlash (cs : List Char) : Option (List Char × List Char) :=
  match cs with
  | [] => none
  | c :: rest =>
      match splitAtLastSlash rest with
      | some (d, f) => some (c :: d, f)
      | none => if c = '/' then some ([], rest) else none

/-- Modelled from the spec: File_RenameRetry, the bounded-retry rename
wrapper of section 6 that fileIO.c calls with a budget of maxTimes
attempts; its body is not among the given source files.  busyCount is the
number of leading attempts on which the destination is transiently busy.
The rename succeeds on the first non-busy attempt within the budget
provided the source node exists; after maxTimes busy attempts it gives up.
Returns (failed, filesystem afterward, attempts made); like the C function
it returns nonzero (true) exactly on failure. -/
def File_RenameRetry (fromPath toPath : String) (maxTimes busyCount : Nat)
    (fs : FileSys) : Bool × FileSys × Nat :=
  if busyCount < maxTimes then
    match fsLookup fs fromPath with
    | some node =>
        (false, fsInsert (fsErase fs fromPath) toPath node, busyCount + 1)
    | none => (true, fs, busyCount + 1)
  else
    (true, fs, maxTimes)

/-- Observable events of one FileIO_AtomicExchangeFiles call, in order. -/
inductive XEvent where
  | releaseLock (tok : Nat)
  | closeNewHandle
  | closeNativeCurrHandle
  | renameCall (fromPath toPath : String) (attempts : Nat) (failed : Bool)
  | closeCurrAtBail
  | reopen (path : String) (access : Nat)
  deriving DecidableEq, Repr

/-- Outcomes of the fallible primitives FileIO_AtomicExchangeFiles calls,
one field per call site. -/
structure XEnv where
  hostIsVMK : Bool
  fullPath : String → Option String
  snprintfFail1 : Bool
  snprintfFail2 : Bool
  openDirOk : Bool
  ioctlOk : Bool
  busyCount : Nat
  reopenStatus : FileIOResult
  relockToken : Option Nat

/-- Result of one FileIO_AtomicExchangeFiles call.  panicked records that
Panic was reached (the call never returns); otherwise ret is the C return
value, and currFD the descriptor the caller is left with. -/
structure XResult where
  panicked : Bool
  ret : Bool
  fs : FileSys
  currFD : FileIODescriptor
  events : List XEvent
  renameAttempts : Nat
  deriving Repr

/-- The invalid descriptor: no platform handle, no lock token. -/
def invalidFD : FileIODescriptor :=
  { fileName := "", posix := -1, flags := 0, lockToken := none }

/-- FileIO_AtomicExchangeFiles from fileIO.c lines 727-863.

VMK (ESX) branch: both paths are fully resolved, split into directory and
file components, marshalled into the swap-files ioctl arguments (either
Str_Snprintf may overflow), the directory is opened and the
IOCTLCMD_VMFS_SWAP_FILES ioctl exchanges the two nodes; both descriptors
stay open and both paths keep a node.  Failure at any of these steps
returns FALSE with the filesystem unchanged.

Hosted branch: both file names are captured along with the current
descriptor's flags; newFD is closed via FileIO_Close (which, modelled from
the spec lifecycle, releases its lock token before the handle); the current
descriptor's platform handle is closed natively, leaving its lock token in
place; File_RenameRetry moves the new file onto the current path with a
budget of 10 attempts; then the bail label closes currFD via FileIO_Close
(releasing its lock token — the XXX in the source) and reopens currPath
with the captured flags via FileIO_Open (modelled from the spec: success
repopulates the descriptor, reacquiring a lock token when the flags ask
for locking); if the reopen fails the code Panics. -/
def FileIO_AtomicExchangeFiles (newFD currFD : FileIODescriptor)
    (fs : FileSys) (env : XEnv) : XResult :=
  if env.hostIsVMK then
    match env.fullPath currFD.fileName, env.fullPath newFD.fileName with
    | some currPath, some newPath =>
        let _dirSplit := splitAtLastSlash newPath.toList
        let _dstSplit := splitAtLastSlash currPath.toList
        if env.snprintfFail1 ∨ env.snprintfFail2 then
          { panicked := false, ret := false, fs := fs, currFD := currFD,
            events := [], renameAttempts := 0 }
        else if !env.openDirOk then
          { panicked := false, ret := false, fs := fs, currFD := currFD,
            events := [], renameAttempts := 0 }
        else
          match fsLookup fs currPath, fsLookup fs newPath with
          | some currNode, some newNode =>
              if env.ioctlOk then
                { panicked := false, ret := true,
                  fs := fsInsert (fsInsert fs currPath newNode)
                          newPath currNode,
                  currFD := currFD, events := [], renameAttempts := 0 }
              else
                { panicked := false, ret := false, fs := fs,
                  currFD := currFD, events := [], renameAttempts := 0 }
          | _, _ =>
              { panicked := false, ret := false, fs := fs, currFD := currFD,
                events := [], renameAttempts := 0 }
    | _, _ =>
        { panicked := true, ret := false, fs := fs, currFD := currFD,
          events := [], renameAttempts := 0 }
  else
    let currPath := currFD.fileName
    let newPath := newFD.fileName
    let currAccess := currFD.flags
    let evA := (match newFD.lockToken with
                | some t => [XEvent.releaseLock t]
                | none => []) ++ [XEvent.closeNewHandle]
    let evB := evA ++ [XEvent.closeNativeCurrHandle]
    let rr := File_RenameRetry newPath currPath 10 env.busyCount fs
    let renFailed := rr.1
    let fs1 := rr.2.1
    let attempts := rr.2.2
    let evC := evB ++ [XEvent.renameCall newPath currPath attempts renFailed]
    let evD := evC ++ (match currFD.lockToken with
                       | some t => [XEvent.releaseLock t]
                       | none => []) ++ [XEvent.closeCurrAtBail]
    let evE := evD ++ [XEvent.reopen currPath currAccess]
    if env.reopenStatus = FileIOResult.SUCCESS then
      { panicked := false, ret := !renFailed, fs := fs1,
        currFD := { fileName := currPath, posix := 3, flags := currAccess,
                    lockToken :=
                      if currAccess &&& FILEIO_OPEN_LOCKED ≠ 0 then
                        env.relockToken
                      else none },
        events := evE, renameAttempts := attempts }
    else
      { panicked := true, ret := false, fs := fs1, currFD := invalidFD,
        events := evE, renameAttempts := attempts }

/-!  Helper lemmas about the filesystem operations.  -/

theorem fsLookup_cons (a : String) (n : FileNode) (fs : FileSys)
    (q : String) :
    fsLookup ((a, n) :: fs) q = if a = q then some n else fsLookup fs q := by
  by_cases h : a = q <;> simp [fsLookup, List.find?_cons, h]

theorem fsErase_cons (a : String) (n : FileNode) (fs : FileSys)
    (p : String) :
    fsErase ((a, n) :: fs) p =
      if a = p then fsErase fs p else (a, n) :: fsErase fs p := by
  by_cases h : a = p <;> simp [fsErase, List.filter_cons, h]

theorem fsChmod_cons (a : String) (n : FileNode) (fs : FileSys)
    (p : String) (bits : Nat) :
    fsChmod ((a, n) :: fs) p bits =
      (if a = p then (a, { n with mode := bits }) else (a, n)) ::
        fsChmod fs p bits := by
  by_cases h : a = p <;> simp [fsChmod, h]

theorem fsChown_cons (a : String) (n : FileNode) (fs : FileSys)
    (p : String) (uid gid : Nat) :
    fsChown ((a, n) :: fs) p uid gid =
      (if a = p then (a, { n with uid := uid, gid := gid }) else (a, n)) ::
        fsChown fs p uid gid := by
  by_cases h : a = p <;> simp [fsChown, h]

theorem fsLookup_erase_self (fs : FileSys) (p : String) :
    fsLookup (fsErase fs p) p = none := by
  induction fs with
  | nil => rfl
  | cons e fs ih =>
      obtain ⟨a, n⟩ := e
      rw [fsErase_cons]
      split_ifs with h
      · exact ih
      · rw [fsLookup_cons, if_neg h]
        exact ih

theorem fsLookup_erase_ne (fs : FileSys) (p q : String) (h : q ≠ p) :
    fsLookup (fsErase fs p) q = fsLookup fs q := by
  induction fs with
  | nil => rfl
  | cons e fs ih =>
      obtain ⟨a, n⟩ := e
      rw [fsErase_cons]
      by_cases he : a = p
      · rw [if_pos he, fsLookup_cons,
            if_neg (fun hq => h (hq.symm.trans he))]
        exact ih
      · rw [if_neg he, fsLookup_cons, fsLookup_cons]
        by_cases heq : a = q
        · rw [if_pos heq, if_pos heq]
        · rw [if_neg heq, if_neg heq]
          exact ih

theorem fsLookup_insert_self (fs : FileSys) (p : String) (n : FileNode) :
    fsLookup (fsInsert fs p n) p = some n := by
  rw [fsInsert, fsLookup_cons, if_pos rfl]

theorem fsLookup_insert_ne (fs : FileSys) (p q : String) (n : FileNode)
    (h : q ≠ p) :
    fsLookup (fsInsert fs p n) q = fsLookup fs q := by
  rw [fsInsert, fsLookup_cons, if_neg (fun hp => h hp.symm)]
  exact fsLookup_erase_ne fs p q h

theorem fsErase_filter_eq_nil (fs : FileSys) (p : String) :
    (fsErase fs p).filter (fun e => e.1 = p) = [] := by
  induction fs with
  | nil => rfl
  | cons e fs ih =>
      obtain ⟨a, n⟩ := e
      rw [fsErase_cons]
      split_ifs with h
      · exact ih
      · rw [List.filter_cons, if_neg (by simp [h])]
        exact ih

theorem fsCountAt_insert_self (fs : FileSys) (p : String) (n : FileNode) :
    fsCountAt (fsInsert fs p n) p = 1 := by
  unfold fsCountAt fsInsert
  rw [List.filter_cons, if_pos (by simp), fsErase_filter_eq_nil]
  rfl

theorem fsLookup_chmod_self (fs : FileSys) (p : String) (bits : Nat) :
    fsLookup (fsChmod fs p bits) p =
      (fsLookup fs p).map (fun n => { n with mode := bits }) := by
  induction fs with
  | nil => rfl
  | cons e fs ih =>
      obtain ⟨a, n⟩ := e
      rw [fsChmod_cons]
      split_ifs with h
      · rw [fsLookup_cons, if_pos h, fsLookup_cons, if_pos h]
        rfl
      · rw [fsLookup_cons, if_neg h, fsLookup_cons, if_neg h]
        exact ih

theorem fsLookup_chown_self (fs : FileSys) (p : String) (uid gid : Nat) :
    fsLookup (fsChown fs p uid gid) p =
      (fsLookup fs p).map (fun n => { n with uid := uid, gid := gid }) := by
  induction fs with
  | nil => rfl
  | cons e fs ih =>
      obtain ⟨a, n⟩ := e
      rw [fsChown_cons]
      split_ifs with h
      · rw [fsLookup_cons, if_pos h, fsLookup_cons, if_pos h]
        rfl
      · rw [fsLookup_cons, if_neg h, fsLookup_cons, if_neg h]
        exact ih

/-!  Sample values used by witnesses.  -/

/-- A descriptor holding no lock token. -/
def plainFD : FileIODescriptor :=
  { fileName := "cfg", posix := 3, flags := 0, lockToken := none }

/-- A descriptor holding lock token 7. -/
def lockedFD : FileIODescriptor :=
  { fileName := "cfg", posix := 4,
    flags := FILEIO_OPEN_ACCESS_WRITE ||| FILEIO_OPEN_LOCKED,
    lockToken := some 7 }

/-!  Claim theorems.  -/

/-- C2: whenever locking was requested and the underlying FileLock_Lock
primitive produced no token, FileIO_Lock never returns Success, and the
result is determined by the failure reason exactly as: lock held /
timeout (err = 0) or read-only medium (EROFS) gives LOCK_FAILED,
ENAMETOOLONG gives FILE_NAME_TOO_LONG, ENOENT gives FILE_NOT_FOUND,
EACCES gives NO_PERMISSION, and anything else gives ERROR. -/
theorem C2_lock_error_translation (file : FileIODescriptor) (access : Nat)
    (err : Nat) (hlock : access &&& FILEIO_OPEN_LOCKED ≠ 0) :
    (FileIO_Lock file access none err).2 ≠ FileIOResult.SUCCESS ∧
    (FileIO_Lock file access none err).2 =
      (if err = 0 ∨ err = EROFS then FileIOResult.LOCK_FAILED
       else if err = ENAMETOOLONG then FileIOResult.FILE_NAME_TOO_LONG
       else if err = ENOENT then FileIOResult.FILE_NOT_FOUND
       else if err = EACCES then FileIOResult.NO_PERMISSION
       else FileIOResult.ERROR) := by
  unfold FileIO_Lock
  rw [if_pos hlock]
  constructor
  · split_ifs <;> simp
  · split_ifs <;> simp_all

/-- Witness for C2: a concrete locked open with ENOENT from the lock
primitive maps to FILE_NOT_FOUND and is not Success. -/
theorem C2_lock_error_translation_witness :
    (FileIO_Lock plainFD FILEIO_OPEN_LOCKED none ENOENT).2 ≠
      FileIOResult.SUCCESS ∧
    (FileIO_Lock plainFD FILEIO_OPEN_LOCKED none ENOENT).2 =
      (if ENOENT = 0 ∨ ENOENT = EROFS then FileIOResult.LOCK_FAILED
       else if ENOENT = ENAMETOOLONG then FileIOResult.FILE_NAME_TOO_LONG
       else if ENOENT = ENOENT then FileIOResult.FILE_NOT_FOUND
       else if ENOENT = EACCES then FileIOResult.NO_PERMISSION
       else FileIOResult.ERROR) :=
  C2_lock_error_translation plainFD FILEIO_OPEN_LOCKED ENOENT (by decide)

/-- C6: FileIO_Unlock is idempotent: on a handle holding no lock token it
is a no-op returning Success with no token passed to the underlying unlock
primitive, and a second release after any first release returns Success
and passes no token to the primitive (so the same token is never released
twice). -/
theorem C6_unlock_idempotent (file g : FileIODescriptor)
    (ok1 ok2 okA : Bool) (hnone : file.lockToken = none) :
    FileIO_Unlock file ok1 = (file, FileIOResult.SUCCESS, []) ∧
    FileIO_Unlock (FileIO_Unlock g okA).1 ok2 =
      ((FileIO_Unlock g okA).1, FileIOResult.SUCCESS, []) := by
  constructor
  · simp [FileIO_Unlock, hnone]
  · cases h : g.lockToken <;> simp [FileIO_Unlock, h]

/-- Witness for C6 at a token-free first handle and a token-holding second
handle whose first release fails, showing the second release still
succeeds and passes no token. -/
theorem C6_unlock_idempotent_witness :
    FileIO_Unlock plainFD true = (plainFD, FileIOResult.SUCCESS, []) ∧
    FileIO_Unlock (FileIO_Unlock lockedFD false).1 true =
      ((FileIO_Unlock lockedFD false).1, FileIOResult.SUCCESS, []) :=
  C6_unlock_idempotent plainFD lockedFD true true false (by decide)

/-- C10: after any FileIO_Unlock call on a handle holding a lock token the
token field is cleared to null, and the call returns Success or ERROR
according to whether the underlying FileLock_Unlock primitive succeeded;
in particular the token is cleared even when the primitive fails. -/
theorem C10_unlock_clears_token (file : FileIODescriptor) (unlockOk : Bool)
    (tok : Nat) (htok : file.lockToken = some tok) :
    (FileIO_Unlock file unlockOk).1.lockToken = none ∧
    (FileIO_Unlock file unlockOk).2.1 =
      (if unlockOk then FileIOResult.SUCCESS else FileIOResult.ERROR) ∧
    (FileIO_Unlock (FileIO_Unlock file unlockOk).1 unlockOk).2.2 = [] := by
  refine ⟨?_, ?_, ?_⟩ <;> simp [FileIO_Unlock, htok]

/-- Witness for C10: the locked sample handle, failing unlock primitive. -/
theorem C10_unlock_clears_token_witness :
    (FileIO_Unlock lockedFD false).1.lockToken = none ∧
    (FileIO_Unlock lockedFD false).2.1 =
      (if false then FileIOResult.SUCCESS else FileIOResult.ERROR) ∧
    (FileIO_Unlock (FileIO_Unlock lockedFD false).1 false).2.2 = [] :=
  C10_unlock_clears_token lockedFD false 7 (by decide)

/-- C8: for a valid original handle whose name resolves, the sibling path
computed by FileIOAtomicTempPath is exactly the resolved full path with the
single character tilde appended, and the computation depends only on the
original's file name: any descriptor with the same name yields the same
sibling path. -/
theorem C8_temp_path_deterministic (fullPath : String → Option String)
    (fd fd2 : FileIODescriptor) (resolved : String)
    (_hvalid : FileIO_IsValid fd = true)
    (hres : fullPath fd.fileName = some resolved)
    (hsame : fd2.fileName = fd.fileName) :
    FileIOAtomicTempPath fullPath fd = some (resolved ++ "~") ∧
    FileIOAtomicTempPath fullPath fd2 = FileIOAtomicTempPath fullPath fd := by
  constructor
  · simp [FileIOAtomicTempPath, hres]
  · simp [FileIOAtomicTempPath, hsame]

/-- Witness for C8: identity resolution on the sample descriptor and a
second descriptor sharing its name. -/
theorem C8_temp_path_deterministic_witness :
    FileIOAtomicTempPath (fun s => some s) plainFD = some ("cfg" ++ "~") ∧
    FileIOAtomicTempPath (fun s => some s) lockedFD =
      FileIOAtomicTempPath (fun s => some s) plainFD :=
  C8_temp_path_deterministic (fun s => some s) plainFD lockedFD "cfg"
    rfl rfl rfl

/-- A stale leftover node sitting at the sibling path. -/
def staleNode : FileNode :=
  { content := "stale", mode := 493, uid := 5, gid := 5 }

/-- An environment in which every primitive succeeds but fstat fails. -/
def envFstatFail : TempEnv :=
  { fullPath := fun s => some s, fstatResult := none,
    createStatus := FileIOResult.SUCCESS, chmodOk := true, chownOk := true,
    procUid := 0, procGid := 0 }

/-- An environment in which every primitive succeeds. -/
def envAllOk : TempEnv :=
  { fullPath := fun s => some s,
    fstatResult := some { mode := 420, uid := 10, gid := 20 },
    createStatus := FileIOResult.SUCCESS, chmodOk := true, chownOk := true,
    procUid := 0, procGid := 0 }

/-- Counterexample to C3 as stated: a FileIO_AtomicTempFile call that fails
at the attribute-read step (fstat), with a stale leftover already sitting
at the sibling path, returns FALSE yet a file node does remain at the
sibling path afterward — the failure occurs before the stale-sibling
unlink, so the stale node survives. -/
theorem C3_counterexample_stale_survives :
    (FileIO_AtomicTempFile plainFD [("cfg~", staleNode)] envFstatFail).ok
      = false ∧
    FileIOAtomicTempPath envFstatFail.fullPath plainFD = some "cfg~" ∧
    fsLookup
      (FileIO_AtomicTempFile plainFD [("cfg~", staleNode)] envFstatFail).fs
      "cfg~" = some staleNode := by
  refine ⟨rfl, rfl, rfl⟩

/-- C3 amended: every FileIO_AtomicTempFile call that fails at any internal
step returns FALSE with tempFD left invalid, and no file node created by
the call remains at the sibling path, case by failure stage: if the
temp-path computation fails the filesystem is left entirely unchanged; if
the attribute read (fstat) fails the filesystem is left entirely unchanged
(both precede the stale-sibling unlink, so a pre-existing stale node may
remain); and once the path is computed and the attributes are read, any
failure (creation, permission copy or ownership copy) leaves no file node
at the sibling path — the partial sibling is closed and unlinked by the
bail path. -/
theorem C3_amended_unwind (fileFD : FileIODescriptor) (fs : FileSys)
    (env : TempEnv)
    (hfail : (FileIO_AtomicTempFile fileFD fs env).ok = false) :
    (FileIO_AtomicTempFile fileFD fs env).tempValid = false ∧
    (FileIOAtomicTempPath env.fullPath fileFD = none →
      (FileIO_AtomicTempFile fileFD fs env).fs = fs) ∧
    (env.fstatResult = none →
      (FileIO_AtomicTempFile fileFD fs env).fs = fs) ∧
    ((FileIOAtomicTempPath env.fullPath fileFD).isSome = true →
      env.fstatResult.isSome = true →
      fsLookup (FileIO_AtomicTempFile fileFD fs env).fs
        ((FileIOAtomicTempPath env.fullPath fileFD).getD "") = none) := by
  cases hp : FileIOAtomicTempPath env.fullPath fileFD with
  | none =>
      refine ⟨?_, fun _ => ?_, fun _ => ?_, fun hs _ => ?_⟩
      · simp [FileIO_AtomicTempFile, hp]
      · simp [FileIO_AtomicTempFile, hp]
      · simp [FileIO_AtomicTempFile, hp]
      · simp [hp] at hs
  | some p =>
      cases hst : env.fstatResult with
      | none =>
          refine ⟨?_, fun _ => ?_, fun _ => ?_, fun _ hs => ?_⟩
          · simp [FileIO_AtomicTempFile, hp, hst]
          · simp [FileIO_AtomicTempFile, hp, hst]
          · simp [FileIO_AtomicTempFile, hp, hst]
          · simp [hst] at hs
      | some st =>
          refine ⟨?_, fun hn => ?_, fun hn => ?_, fun _ _ => ?_⟩
          · by_cases hc : env.createStatus = FileIOResult.SUCCESS
            · by_cases hm : env.chmodOk
              · by_cases ho : env.chownOk
                · exfalso
                  simp [FileIO_AtomicTempFile, hp, hst, hc, hm, ho]
                    at hfail
                · simp [FileIO_AtomicTempFile, hp, hst, hc, hm, ho]
              · simp [FileIO_AtomicTempFile, hp, hst, hc, hm]
            · simp [FileIO_AtomicTempFile, hp, hst, hc]
          · simp [hp] at hn
          · simp [hst] at hn
          · by_cases hc : env.createStatus = FileIOResult.SUCCESS
            · by_cases hm : env.chmodOk
              · by_cases ho : env.chownOk
                · exfalso
                  simp [FileIO_AtomicTempFile, hp, hst, hc, hm, ho]
                    at hfail
                · simp [FileIO_AtomicTempFile, hp, hst, hc, hm, ho,
                        fsLookup_erase_self]
              · simp [FileIO_AtomicTempFile, hp, hst, hc, hm,
                      fsLookup_erase_self]
            · simp [FileIO_AtomicTempFile, hp, hst, hc,
                    fsLookup_erase_self]

/-- Witness for the amended C3 at the concrete fstat-failure run with a
stale node at the sibling path. -/
theorem C3_amended_unwind_witness :
    (FileIO_AtomicTempFile plainFD [("cfg~", staleNode)]
       envFstatFail).tempValid = false ∧
    (FileIOAtomicTempPath envFstatFail.fullPath plainFD = none →
      (FileIO_AtomicTempFile plainFD [("cfg~", staleNode)]
         envFstatFail).fs = [("cfg~", staleNode)]) ∧
    (envFstatFail.fstatResult = none →
      (FileIO_AtomicTempFile plainFD [("cfg~", staleNode)]
         envFstatFail).fs = [("cfg~", staleNode)]) ∧
    ((FileIOAtomicTempPath envFstatFail.fullPath plainFD).isSome = true →
      envFstatFail.fstatResult.isSome = true →
      fsLookup
        (FileIO_AtomicTempFile plainFD [("cfg~", staleNode)]
           envFstatFail).fs
        ((FileIOAtomicTempPath envFstatFail.fullPath plainFD).getD "") =
        none) :=
  C3_amended_unwind plainFD [("cfg~", staleNode)] envFstatFail rfl

/-- C7: every successful FileIO_AtomicTempFile call reads the original's
permission bits and owning identity (the stat event, first in the trace)
before the sibling is created (third in the trace), creates the sibling
with the read-write access mode the call requests, and afterward applies
the original's permission bits and ownership to the sibling, whose final
node carries exactly the original's mode, uid and gid. -/
theorem C7_metadata_propagation (fileFD : FileIODescriptor) (fs : FileSys)
    (env : TempEnv) (st : Stat) (p : String)
    (hst : env.fstatResult = some st)
    (hp : FileIOAtomicTempPath env.fullPath fileFD = some p)
    (hok : (FileIO_AtomicTempFile fileFD fs env).ok = true) :
    (FileIO_AtomicTempFile fileFD fs env).events =
      [TempEvent.statRead st, TempEvent.staleUnlink p,
       TempEvent.create p (FILEIO_ACCESS_READ ||| FILEIO_ACCESS_WRITE)
         st.mode,
       TempEvent.applyPerms p st.mode,
       TempEvent.applyOwner p st.uid st.gid] ∧
    fsLookup (FileIO_AtomicTempFile fileFD fs env).fs p =
      some { content := "", mode := st.mode, uid := st.uid,
             gid := st.gid } := by
  by_cases hc : env.createStatus = FileIOResult.SUCCESS
  · by_cases hm : env.chmodOk
    · by_cases ho : env.chownOk
      · constructor
        · simp [FileIO_AtomicTempFile, hp, hst, hc, hm, ho]
        · simp [FileIO_AtomicTempFile, hp, hst, hc, hm, ho,
                fsLookup_chown_self, fsLookup_chmod_self,
                fsLookup_insert_self]
      · simp [FileIO_AtomicTempFile, hp, hst, hc, hm, ho] at hok
    · simp [FileIO_AtomicTempFile, hp, hst, hc, hm] at hok
  · simp [FileIO_AtomicTempFile, hp, hst, hc] at hok

/-- Witness for C7 at a concrete fully-successful run on an empty
filesystem: mode 420 (octal 0644), owner 10, group 20 all propagate. -/
theorem C7_metadata_propagation_witness :
    (FileIO_AtomicTempFile plainFD [] envAllOk).events =
      [TempEvent.statRead { mode := 420, uid := 10, gid := 20 },
       TempEvent.staleUnlink "cfg~",
       TempEvent.create "cfg~"
         (FILEIO_ACCESS_READ ||| FILEIO_ACCESS_WRITE) 420,
       TempEvent.applyPerms "cfg~" 420,
       TempEvent.applyOwner "cfg~" 10 20] ∧
    fsLookup (FileIO_AtomicTempFile plainFD [] envAllOk).fs "cfg~" =
      some { content := "", mode := 420, uid := 10, gid := 20 } :=
  C7_metadata_propagation plainFD [] envAllOk
    { mode := 420, uid := 10, gid := 20 } "cfg~" rfl rfl rfl

/-- The original configuration file's node. -/
def cfgNode : FileNode :=
  { content := "a=1", mode := 420, uid := 10, gid := 20 }

/-- The populated temp (sibling) file's node. -/
def tmpNode : FileNode :=
  { content := "a=2", mode := 420, uid := 10, gid := 20 }

/-- The original descriptor: open for write with locking, holding lock
token 7. -/
def currSample : FileIODescriptor :=
  { fileName := "d/cfg", posix := 4,
    flags := FILEIO_OPEN_ACCESS_WRITE ||| FILEIO_OPEN_LOCKED,
    lockToken := some 7 }

/-- The temp-file descriptor produced by the factory. -/
def newSample : FileIODescriptor :=
  { fileName := "d/cfg~", posix := 5,
    flags := FILEIO_OPEN_ACCESS_READ ||| FILEIO_OPEN_ACCESS_WRITE,
    lockToken := none }

/-- The on-disk state before the commit: original plus populated temp. -/
def fsBefore : FileSys := [("d/cfg", cfgNode), ("d/cfg~", tmpNode)]

/-- Exchange environment for the VMK (ESX) strategy, every primitive
succeeding. -/
def envVMK : XEnv :=
  { hostIsVMK := true, fullPath := fun s => some s,
    snprintfFail1 := false, snprintfFail2 := false, openDirOk := true,
    ioctlOk := true, busyCount := 0,
    reopenStatus := FileIOResult.SUCCESS, relockToken := none }

/-- Exchange environment for the hosted (rename) strategy with the given
number of transiently busy rename attempts. -/
def envHosted (busy : Nat) : XEnv :=
  { hostIsVMK := false, fullPath := fun s => some s,
    snprintfFail1 := false, snprintfFail2 := false, openDirOk := true,
    ioctlOk := true, busyCount := busy,
    reopenStatus := FileIOResult.SUCCESS, relockToken := some 9 }

/-- Counterexample to C1 as stated: on the VMK (ESX) strategy a successful
FileIO_AtomicExchangeFiles returns TRUE and the temp content is indeed
exchanged onto the original's path, but the temp file's own path still
holds a file node afterward (the original's previous content), so a file
does exist at the sibling path after a successful commit. -/
theorem C1_counterexample_vmk_sibling_survives :
    (FileIO_AtomicExchangeFiles newSample currSample fsBefore envVMK).ret
      = true ∧
    fsLookup
      (FileIO_AtomicExchangeFiles newSample currSample fsBefore envVMK).fs
      "d/cfg" = some tmpNode ∧
    fsLookup
      (FileIO_AtomicExchangeFiles newSample currSample fsBefore envVMK).fs
      "d/cfg~" = some cfgNode := by
  refine ⟨rfl, rfl, rfl⟩

/-- C1 amended: for every successful commit under the rename-based
(non-VMK) strategy, exactly one file node exists at the original's path,
its content is exactly the node the temp file held before the call, and no
file node exists at the sibling (temp) path; under the VMK swap strategy
the temp content likewise lands at the original's path but the sibling
path retains a node holding the original's previous content (as the
counterexample exhibits). -/
theorem C1_amended_rename_commit (newFD currFD : FileIODescriptor)
    (fs : FileSys) (env : XEnv) (tempNode : FileNode)
    (hhost : env.hostIsVMK = false)
    (hne : newFD.fileName ≠ currFD.fileName)
    (hnew : fsLookup fs newFD.fileName = some tempNode)
    (hret : (FileIO_AtomicExchangeFiles newFD currFD fs env).ret = true) :
    fsLookup (FileIO_AtomicExchangeFiles newFD currFD fs env).fs
      currFD.fileName = some tempNode ∧
    fsLookup (FileIO_AtomicExchangeFiles newFD currFD fs env).fs
      newFD.fileName = none ∧
    fsCountAt (FileIO_AtomicExchangeFiles newFD currFD fs env).fs
      currFD.fileName = 1 := by
  by_cases hbusy : env.busyCount < 10
  · by_cases hre : env.reopenStatus = FileIOResult.SUCCESS
    · refine ⟨?_, ?_, ?_⟩ <;>
        simp [FileIO_AtomicExchangeFiles, File_RenameRetry, hhost, hbusy,
              hnew, hre, fsLookup_insert_self, fsCountAt_insert_self,
              fsLookup_insert_ne _ _ _ _ hne, fsLookup_erase_self]
    · exfalso
      simp [FileIO_AtomicExchangeFiles, File_RenameRetry, hhost, hbusy,
            hnew, hre] at hret
  · exfalso
    by_cases hre : env.reopenStatus = FileIOResult.SUCCESS <;>
      simp [FileIO_AtomicExchangeFiles, File_RenameRetry, hhost, hbusy,
            hre] at hret

/-- Witness for the amended C1: the concrete hosted commit of d/cfg~ onto
d/cfg with no busy attempts. -/
theorem C1_amended_rename_commit_witness :
    fsLookup
      (FileIO_AtomicExchangeFiles newSample currSample fsBefore
        (envHosted 0)).fs currSample.fileName = some tmpNode ∧
    fsLookup
      (FileIO_AtomicExchangeFiles newSample currSample fsBefore
        (envHosted 0)).fs newSample.fileName = none ∧
    fsCountAt
      (FileIO_AtomicExchangeFiles newSample currSample fsBefore
        (envHosted 0)).fs currSample.fileName = 1 :=
  C1_amended_rename_commit newSample currSample fsBefore (envHosted 0)
    tmpNode rfl (by decide) rfl rfl

/-- C4: in every rename-based commit in which the rename fails after
exhausting its retries, the function still reopens the original at its
original path with its original open flags as the very last step before
returning (the reopen event closes the trace), the commit reports failure,
and if that reopen itself fails the condition is surfaced as a Panic — a
fatal hard failure, never an ordinary return; when the reopen succeeds the
caller is left with a valid handle carrying the original path and flags. -/
theorem C4_reopen_after_failed_rename (newFD currFD : FileIODescriptor)
    (fs : FileSys) (env : XEnv)
    (hhost : env.hostIsVMK = false)
    (hexhausted : 10 ≤ env.busyCount) :
    (FileIO_AtomicExchangeFiles newFD currFD fs env).ret = false ∧
    (FileIO_AtomicExchangeFiles newFD currFD fs env).events.getLast? =
      some (XEvent.reopen currFD.fileName currFD.flags) ∧
    ((FileIO_AtomicExchangeFiles newFD currFD fs env).panicked = true ↔
      env.reopenStatus ≠ FileIOResult.SUCCESS) ∧
    ((FileIO_AtomicExchangeFiles newFD currFD fs env).panicked = false →
      FileIO_IsValid
          (FileIO_AtomicExchangeFiles newFD currFD fs env).currFD = true ∧
        (FileIO_AtomicExchangeFiles newFD currFD fs env).currFD.fileName =
          currFD.fileName ∧
        (FileIO_AtomicExchangeFiles newFD currFD fs env).currFD.flags =
          currFD.flags) := by
  have hnb : ¬ env.busyCount < 10 := Nat.not_lt.mpr hexhausted
  cases htok : currFD.lockToken <;>
    by_cases hre : env.reopenStatus = FileIOResult.SUCCESS <;>
      refine ⟨?_, ?_, ?_, ?_⟩ <;>
        simp [FileIO_AtomicExchangeFiles, File_RenameRetry, FileIO_IsValid,
              hhost, hnb, hre, htok, List.getLast?_append_cons]

/-- Witness for C4: a hosted commit whose rename stays busy for all 10
attempts and whose reopen succeeds. -/
theorem C4_reopen_after_failed_rename_witness :
    (FileIO_AtomicExchangeFiles newSample currSample fsBefore
       (envHosted 10)).ret = false ∧
    (FileIO_AtomicExchangeFiles newSample currSample fsBefore
       (envHosted 10)).events.getLast? =
      some (XEvent.reopen currSample.fileName currSample.flags) ∧
    ((FileIO_AtomicExchangeFiles newSample currSample fsBefore
        (envHosted 10)).panicked = true ↔
      (envHosted 10).reopenStatus ≠ FileIOResult.SUCCESS) ∧
    ((FileIO_AtomicExchangeFiles newSample currSample fsBefore
        (envHosted 10)).panicked = false →
      FileIO_IsValid
          (FileIO_AtomicExchangeFiles newSample currSample fsBefore
            (envHosted 10)).currFD = true ∧
        (FileIO_AtomicExchangeFiles newSample currSample fsBefore
            (envHosted 10)).currFD.fileName = currSample.fileName ∧
        (FileIO_AtomicExchangeFiles newSample currSample fsBefore
            (envHosted 10)).currFD.flags = currSample.flags) :=
  C4_reopen_after_failed_rename newSample currSample fsBefore
    (envHosted 10) rfl (by decide)

/-- Evaluation of the code at C5's failing input: a hosted commit whose
original handle holds lock token 7.  The event trace shows the native
close of the original's platform handle at index 1, the release of lock
token 7 at index 3 (emitted by the FileIO_Close call at the bail label —
the XXX the source itself flags), and the reopen only afterward at index
5: the lock token is released strictly inside the close-to-reopen gap,
contradicting the claim that it is held continuously across it. -/
theorem C5_lock_released_inside_gap :
    (FileIO_AtomicExchangeFiles newSample currSample fsBefore
       (envHosted 0)).events =
      [XEvent.closeNewHandle, XEvent.closeNativeCurrHandle,
       XEvent.renameCall "d/cfg~" "d/cfg" 1 false,
       XEvent.releaseLock 7, XEvent.closeCurrAtBail,
       XEvent.reopen "d/cfg"
         (FILEIO_OPEN_ACCESS_WRITE ||| FILEIO_OPEN_LOCKED)] ∧
    (FileIO_AtomicExchangeFiles newSample currSample fsBefore
       (envHosted 0)).events[1]? = some XEvent.closeNativeCurrHandle ∧
    (FileIO_AtomicExchangeFiles newSample currSample fsBefore
       (envHosted 0)).events[3]? = some (XEvent.releaseLock 7) ∧
    (FileIO_AtomicExchangeFiles newSample currSample fsBefore
       (envHosted 0)).events[5]? =
      some (XEvent.reopen "d/cfg"
        (FILEIO_OPEN_ACCESS_WRITE ||| FILEIO_OPEN_LOCKED)) := by
  refine ⟨rfl, rfl, rfl, rfl⟩

/-- C9: in every rename-based commit whose temp file exists, the rename is
attempted at most 10 times — exactly min (busy + 1) 10 attempts are made
when the destination is transiently busy for the first busy attempts — and
the commit returns TRUE exactly when the busy condition clears within the
10-attempt budget (and the final reopen lets it return at all); once the
budget is exhausted it stops retrying and reports failure. -/
theorem C9_rename_retry_budget (newFD currFD : FileIODescriptor)
    (fs : FileSys) (env : XEnv) (node : FileNode)
    (hhost : env.hostIsVMK = false)
    (hnew : fsLookup fs newFD.fileName = some node) :
    (FileIO_AtomicExchangeFiles newFD currFD fs env).renameAttempts =
      min (env.busyCount + 1) 10 ∧
    (FileIO_AtomicExchangeFiles newFD currFD fs env).renameAttempts ≤ 10 ∧
    ((FileIO_AtomicExchangeFiles newFD currFD fs env).ret = true ↔
      (env.busyCount < 10 ∧
        env.reopenStatus = FileIOResult.SUCCESS)) := by
  by_cases hbusy : env.busyCount < 10 <;>
    by_cases hre : env.reopenStatus = FileIOResult.SUCCESS <;>
      refine ⟨?_, ?_, ?_⟩ <;>
        simp [FileIO_AtomicExchangeFiles, File_RenameRetry, hhost, hbusy,
              hnew, hre] <;>
          omega

/-- Witness for C9: three busy attempts, then success on the fourth. -/
theorem C9_rename_retry_budget_witness :
    (FileIO_AtomicExchangeFiles newSample currSample fsBefore
       (envHosted 3)).renameAttempts = min (3 + 1) 10 ∧
    (FileIO_AtomicExchangeFiles newSample currSample fsBefore
       (envHosted 3)).renameAttempts ≤ 10 ∧
    ((FileIO_AtomicExchangeFiles newSample currSample fsBefore
        (envHosted 3)).ret = true ↔
      (3 < 10 ∧
        (envHosted 3).reopenStatus = FileIOResult.SUCCESS)) :=
  C9_rename_retry_budget newSample currSample fsBefore (envHosted 3)
    tmpNode rfl rfl

end FileIOSpec
